import Mathlib

set_option maxRecDepth 4000000
set_option maxHeartbeats 4000000

/-!
# AI Code Review Bot — verification of the ingestion/queue/worker core

Shallow embedding of the webhook ingestion path (`src/routes/webhook.js`),
the signature verifier (`src/utils/webhook.js`), the queue configuration
(`src/config/queue.js`), the worker (`src/worker.js`) and the PostgreSQL
schema (`database/schema.sql`), together with theorems settling the frozen
claims about the natural-language specification.

Bytes are `Nat` values below 256, 32-bit words are `Nat` values reduced
modulo `2 ^ 32` explicitly; SQL tables are lists of row structures; the
fallible SQL statement is an `Except`; external collaborators (GitHub
fetch, AI analysis, comment posting) enter as outcome parameters.
-/

namespace AICodeReviewer

/-! ## Bytes and 32-bit words

`crypto.createHmac('sha256', secret).update(payload).digest('hex')` in
`src/utils/webhook.js` is Node's HMAC-SHA-256; it is embedded here as the
FIPS 180-4 / RFC 2104 algorithms over byte lists, with 32-bit arithmetic
expressed as `Nat` operations reduced modulo `2 ^ 32`. -/

/-- Reduce to a 32-bit word. -/
def w32 (x : Nat) : Nat := x % 2 ^ 32

/-- Right rotation of a 32-bit word by `n` places. -/
def rotr (n x : Nat) : Nat := w32 ((x >>> n) ||| (x <<< (32 - n)))

/-- Bitwise complement of a 32-bit word. -/
def not32 (x : Nat) : Nat := x ^^^ (2 ^ 32 - 1)

/-- SHA-256 `Ch` function. -/
def ch (x y z : Nat) : Nat := (x &&& y) ^^^ (not32 x &&& z)

/-- SHA-256 `Maj` function. -/
def maj (x y z : Nat) : Nat := (x &&& y) ^^^ (x &&& z) ^^^ (y &&& z)

/-- SHA-256 `Σ₀`. -/
def bigSigma0 (x : Nat) : Nat := rotr 2 x ^^^ rotr 13 x ^^^ rotr 22 x

/-- SHA-256 `Σ₁`. -/
def bigSigma1 (x : Nat) : Nat := rotr 6 x ^^^ rotr 11 x ^^^ rotr 25 x

/-- SHA-256 `σ₀`. -/
def smallSigma0 (x : Nat) : Nat := rotr 7 x ^^^ rotr 18 x ^^^ (x >>> 3)

/-- SHA-256 `σ₁`. -/
def smallSigma1 (x : Nat) : Nat := rotr 17 x ^^^ rotr 19 x ^^^ (x >>> 10)

/-- The 64 SHA-256 round constants (fractional parts of the cube roots of
the first 64 primes, FIPS 180-4 §4.2.2). -/
def sha256K : List Nat :=
  [1116352408, 1899447441, 3049323471, 3921009573, 961987163, 1508970993,
   2453635748, 2870763221, 3624381080, 310598401, 607225278, 1426881987,
   1925078388, 2162078206, 2614888103, 3248222580, 3835390401, 4022224774,
   264347078, 604807628, 770255983, 1249150122, 1555081692, 1996064986,
   2554220882, 2821834349, 2952996808, 3210313671, 3336571891, 3584528711,
   113926993, 338241895, 666307205, 773529912, 1294757372, 1396182291,
   1695183700, 1986661051, 2177026350, 2456956037, 2730485921, 2820302411,
   3259730800, 3345764771, 3516065817, 3600352804, 4094571909, 275423344,
   430227734, 506948616, 659060556, 883997877, 958139571, 1322822218,
   1537002063, 1747873779, 1955562222, 2024104815, 2227730452, 2361852424,
   2428436474, 2756734187, 3204031479, 3329325298]

/-- The initial SHA-256 hash value (fractional parts of the square roots of
the first 8 primes, FIPS 180-4 §5.3.3). -/
def sha256H0 : List Nat :=
  [1779033703, 3144134277, 1013904242, 2773480762, 1359893119, 2600822924,
   528734635, 1541459225]

/-- Big-endian byte rendering of `x` in `n` bytes. -/
def toBytesBE (n x : Nat) : List Nat :=
  (List.range n).map (fun i => (x >>> (8 * (n - 1 - i))) % 256)

/-- Group a byte list into big-endian 32-bit words (4 bytes each). -/
def bytesToWords (bs : List Nat) : List Nat :=
  (List.range (bs.length / 4)).map (fun i =>
    (bs.getD (4 * i) 0) <<< 24 ||| (bs.getD (4 * i + 1) 0) <<< 16 |||
    (bs.getD (4 * i + 2) 0) <<< 8 ||| bs.getD (4 * i + 3) 0)

/-- SHA-256 padding: append `0x80`, zero bytes, and the 64-bit big-endian
bit length, reaching a multiple of 64 bytes (FIPS 180-4 §5.1.1). -/
def padMessage (msg : List Nat) : List Nat :=
  let zeros := (119 - msg.length % 64) % 64
  msg ++ 128 :: List.replicate zeros 0 ++ toBytesBE 8 (8 * msg.length)

/-- Extend the 16 block words into the 64-entry message schedule
(FIPS 180-4 §6.2.2 step 1). -/
def schedule (ws : List Nat) : List Nat :=
  (List.range 64).foldl
    (fun acc t =>
      if t < 16 then acc ++ [ws.getD t 0]
      else acc ++ [w32 (smallSigma1 (acc.getD (t - 2) 0) + acc.getD (t - 7) 0 +
                        smallSigma0 (acc.getD (t - 15) 0) + acc.getD (t - 16) 0)])
    []

/-- One SHA-256 compression round on the working variables `[a,…,h]`
(FIPS 180-4 §6.2.2 step 3). -/
def compressRound (k w : Nat) (st : List Nat) : List Nat :=
  match st with
  | [a, b, c, d, e, f, g, h] =>
    let t1 := w32 (h + bigSigma1 e + ch e f g + k + w)
    let t2 := w32 (bigSigma0 a + maj a b c)
    [w32 (t1 + t2), a, b, c, w32 (d + t1), e, f, g]
  | other => other

/-- Process one 64-byte block into the running hash (FIPS 180-4 §6.2.2). -/
def processBlock (h : List Nat) (block : List Nat) : List Nat :=
  let ws := schedule (bytesToWords block)
  let fin := (List.range 64).foldl
    (fun st t => compressRound (sha256K.getD t 0) (ws.getD t 0) st) h
  List.zipWith (fun x y => w32 (x + y)) h fin

/-- Split a byte list into consecutive 64-byte blocks. -/
def chunks64 (bs : List Nat) : List (List Nat) :=
  (List.range (bs.length / 64)).map (fun i => ((bs.drop (64 * i)).take 64))

/-- SHA-256 of a byte list, as the 32-byte digest. -/
def sha256 (msg : List Nat) : List Nat :=
  let hs := (chunks64 (padMessage msg)).foldl processBlock sha256H0
  hs.foldr (fun wv acc => toBytesBE 4 wv ++ acc) []

/-- HMAC-SHA-256 (RFC 2104) of `msg` under `key`, both byte lists. -/
def hmacSha256 (key msg : List Nat) : List Nat :=
  let k0 := if 64 < key.length then sha256 key else key
  let kpad := k0 ++ List.replicate (64 - k0.length) 0
  let ipad := kpad.map (fun b => b ^^^ 54)
  let opad := kpad.map (fun b => b ^^^ 92)
  sha256 (opad ++ sha256 (ipad ++ msg))


/-! ## Signature verifier (`src/utils/webhook.js`)

The raw request body, the `x-hub-signature-256` header and the shared
secret are byte lists (the JS code works on UTF-8 strings and compares
their byte buffers). A missing header is `none`; the empty string is falsy
in JS, so it is short-circuited exactly like a missing header. -/

/-- The ASCII bytes of the string `"sha256="` that the code puts in front
of the hex digest. -/
def signatureTag : List Nat := [115, 104, 97, 50, 53, 54, 61]

/-- Hex digit (lowercase) for a value: `0-9` map to `48+n`, `10-15` to
`87+n` (`'a'`–`'f'`), matching Node's `digest('hex')`. -/
def hexDigitByte (n : Nat) : Nat := if n < 10 then 48 + n else 87 + n

/-- Lowercase hex rendering of a byte list, as ASCII bytes. -/
def bytesToHexBytes (bs : List Nat) : List Nat :=
  bs.foldr (fun b acc => hexDigitByte (b / 16) :: hexDigitByte (b % 16) :: acc) []

/-- The digest string the code computes:
`'sha256=' + hmac.update(payload).digest('hex')`, as bytes. -/
def expectedSignature (payload secret : List Nat) : List Nat :=
  signatureTag ++ bytesToHexBytes (hmacSha256 secret payload)

/-- `crypto.timingSafeEqual(a, b)`: throws (`error`) when the buffer
lengths differ, otherwise returns whether the buffers are equal. Constant
running time is an operational property of the primitive with no
functional content beyond this length-guarded whole-buffer comparison. -/
def timingSafeEqual (a b : List Nat) : Except Unit Bool :=
  if a.length = b.length then .ok (decide (a = b)) else .error ()

/-- `verifyGitHubSignature(payload, signature, secret)` from
`src/utils/webhook.js`: `false` when the header is absent (or the empty
string, which is falsy), otherwise a `timingSafeEqual` comparison of the
header against `'sha256=' + hex(hmac)`, with the `try/catch` turning a
length-mismatch throw into `false`. -/
def verifyGitHubSignature (payload : List Nat) (signature : Option (List Nat))
    (secret : List Nat) : Bool :=
  match signature with
  | none => false
  | some sig =>
    if sig = [] then false
    else
      match timingSafeEqual sig (expectedSignature payload secret) with
      | .ok b => b
      | .error _ => false

/-! ## Record store (`database/schema.sql`, `src/routes/webhook.js`, `src/worker.js`)

Tables are lists of rows; `BIGSERIAL` ids are modeled by
max-plus-one fresh ids; `NOW()` is a `Nat` timestamp supplied by the
caller. Field names follow the schema columns. -/

/-- A `repositories` row (`database/schema.sql`). -/
structure RepoRow where
  id : Nat
  github_repo_id : Nat
  name : String
  owner : String
  installation_id : Nat
  created_at : Nat
  updated_at : Nat
deriving Repr, DecidableEq

/-- A `pull_requests` row (`database/schema.sql`); natural key
`(repo_id, pr_number)` is `UNIQUE` in the schema. -/
structure PRRow where
  id : Nat
  repo_id : Nat
  pr_number : Nat
  title : String
  author : String
  status : String
  created_at : Nat
  updated_at : Nat
deriving Repr, DecidableEq

/-- A `review_jobs` row (`database/schema.sql`). The schema puts a plain
(non-unique) index `idx_job_pr` on `pr_id` and no unique or exclusion
constraint on it. -/
structure JobRow where
  id : Nat
  pr_id : Nat
  status : String
  attempts : Nat
  error_message : Option String
  created_at : Nat
  updated_at : Nat
  completed_at : Option Nat
deriving Repr, DecidableEq

/-- A `reviews` row (`database/schema.sql`); `review_content` is the
serialized AI review, kept opaque. -/
structure ReviewRow where
  id : Nat
  pr_id : Nat
  review_content : String
  ai_model : String
  created_at : Nat
deriving Repr, DecidableEq

/-- The record store state: the four tables the core touches. -/
structure Db where
  repositories : List RepoRow
  pull_requests : List PRRow
  review_jobs : List JobRow
  reviews : List ReviewRow
deriving Repr, DecidableEq

/-- Fresh surrogate id for a `BIGSERIAL` column: one more than the largest
id present (no row is ever deleted by the core). -/
def freshId (ids : List Nat) : Nat := ids.foldr (fun i m => max (i + 1) m) 1

/-- The statement at `src/routes/webhook.js:72-84`:
`INSERT INTO repositories … ON CONFLICT (github_repo_id) DO UPDATE SET
updated_at = NOW() RETURNING id`. `github_repo_id` is `UNIQUE` in the
schema, so the conflict target is valid; on conflict only `updated_at`
is refreshed. Returns the row id and the new table state. -/
def upsertRepository (db : Db) (now githubRepoId : Nat) (name owner : String)
    (installationId : Nat) : Nat × Db :=
  match db.repositories.find? (fun r => r.github_repo_id == githubRepoId) with
  | some r =>
    (r.id, { db with repositories := db.repositories.map (fun row =>
      if row.github_repo_id == githubRepoId then { row with updated_at := now } else row) })
  | none =>
    let rid := freshId (db.repositories.map (·.id))
    (rid, { db with repositories := db.repositories ++
      [{ id := rid, github_repo_id := githubRepoId, name := name, owner := owner,
         installation_id := installationId, created_at := now, updated_at := now }] })

/-- The statement at `src/routes/webhook.js:88-104`:
`INSERT INTO pull_requests … ON CONFLICT (repo_id, pr_number) DO UPDATE SET
title = EXCLUDED.title, status = EXCLUDED.status, updated_at = NOW()
RETURNING id`. The schema's `unique_pr_per_repo` constraint makes the
conflict target valid. Note the `DO UPDATE` clause sets `title` and
`status` but not `author`. -/
def upsertPullRequest (db : Db) (now repoId prNumber : Nat)
    (title author status : String) : Nat × Db :=
  match db.pull_requests.find? (fun r => r.repo_id == repoId && r.pr_number == prNumber) with
  | some r =>
    (r.id, { db with pull_requests := db.pull_requests.map (fun row =>
      if row.repo_id == repoId && row.pr_number == prNumber then
        { row with title := title, status := status, updated_at := now } else row) })
  | none =>
    let pid := freshId (db.pull_requests.map (·.id))
    (pid, { db with pull_requests := db.pull_requests ++
      [{ id := pid, repo_id := repoId, pr_number := prNumber, title := title,
         author := author, status := status, created_at := now, updated_at := now }] })

/-- PostgreSQL errors raised by the embedded statements. -/
inductive SqlError
  /-- Error 42P10: `there is no unique or exclusion constraint matching the
  ON CONFLICT specification`. -/
  | noMatchingUniqueConstraint
deriving Repr, DecidableEq

/-- The statement at `src/routes/webhook.js:108-114`:
`INSERT INTO review_jobs (pr_id, status, attempts) VALUES ($1,'pending',0)
ON CONFLICT (pr_id) DO UPDATE SET status = 'pending', updated_at = NOW()`.

PostgreSQL resolves the conflict target `(pr_id)` by unique-index
inference: it requires a unique or exclusion constraint whose columns
match. `database/schema.sql` gives `review_jobs` only the foreign key
`fk_pr_job` and the *non-unique* index `idx_job_pr ON review_jobs(pr_id)`
(no `UNIQUE (pr_id)` anywhere), so inference fails and the statement
raises error 42P10 on every execution — before any row is inserted or
updated. -/
def insertReviewJobPending (_db : Db) (_now _prId : Nat) : Except SqlError Db :=
  .error .noMatchingUniqueConstraint

/-- The write the `review_jobs` statement *describes* (insert a `pending`
job with `attempts = 0`, or re-`pending` the existing row for that
`pr_id`): the semantics the `INSERT … ON CONFLICT (pr_id) DO UPDATE`
text would have were the required unique index on `pr_id` present. Used
to check frame properties of the clause as written (it never touches
`attempts` on conflict, never touches `completed_at` at all). -/
def reviewJobUpsertClause (db : Db) (now prId : Nat) : Db :=
  match db.review_jobs.find? (fun j => j.pr_id == prId) with
  | some _ =>
    { db with review_jobs := db.review_jobs.map (fun j =>
      if j.pr_id == prId then { j with status := "pending", updated_at := now } else j) }
  | none =>
    { db with review_jobs := db.review_jobs ++
      [{ id := freshId (db.review_jobs.map (·.id)), pr_id := prId, status := "pending",
         attempts := 0, error_message := none, created_at := now, updated_at := now,
         completed_at := none }] }


/-! ## Durable queue (`src/config/queue.js`)

BullMQ queue `pr-reviews` with
`defaultJobOptions: { attempts: 3, backoff: { type: 'exponential', delay: 1000 } }`,
`removeOnComplete`/`removeOnFail` retention windows. The entry lifecycle
and the configured retry policy are embedded; delays are milliseconds. -/

/-- The payload `enqueueReview` receives from the webhook route. -/
structure JobData where
  prId : Nat
  repoId : Nat
  prNumber : Nat
  repoFullName : String
deriving Repr, DecidableEq

/-- BullMQ entry lifecycle states as the core observes them. -/
inductive EntryState
  /-- In the waiting set, eligible for dequeue. -/
  | waiting
  /-- Leased to a worker. -/
  | active
  /-- Scheduled for redelivery once the backoff timer `t` expires. -/
  | delayed (t : Nat)
  /-- Acknowledged; retained only for observability. -/
  | completed
  /-- Dead-lettered after the attempt ceiling; never redelivered
  automatically. -/
  | failed
deriving Repr, DecidableEq

/-- A queue entry: BullMQ job with its auto-generated id, job name,
payload, state and `attemptsMade` counter. -/
structure QueueEntry where
  id : Nat
  name : String
  data : JobData
  state : EntryState
  attemptsMade : Nat
deriving Repr, DecidableEq

/-- The `pr-reviews` queue: entries plus the auto-increment id counter
BullMQ uses when `add` is called without an explicit `jobId`. -/
structure ReviewQueue where
  entries : List QueueEntry
  nextId : Nat
deriving Repr, DecidableEq

/-- `JOB_TYPES.REVIEW_PR` (`src/config/queue.js`). -/
def reviewPrJobType : String := "review-pr"

/-- `attempts: 3` from `defaultJobOptions`: the total attempt ceiling. -/
def reviewQueueAttempts : Nat := 3

/-- `backoff.delay: 1000` from `defaultJobOptions`: the base backoff delay
(one second, in milliseconds). -/
def reviewQueueBackoffBase : Nat := 1000

/-- BullMQ exponential backoff: the delay before retry number `k`
(`k ≥ 1`) is `base * 2 ^ (k - 1)`. -/
def backoffDelay (k : Nat) : Nat := reviewQueueBackoffBase * 2 ^ (k - 1)

/-- `enqueueReview(data)` (`src/config/queue.js:92-108`): calls
`reviewQueue.add(JOB_TYPES.REVIEW_PR, data)` with *no* `jobId` option, so
BullMQ assigns the next auto-increment id and appends a fresh waiting
entry unconditionally — there is no deduplication key. Returns the
created job and the new queue state. -/
def enqueueReview (q : ReviewQueue) (data : JobData) : QueueEntry × ReviewQueue :=
  let e : QueueEntry := { id := q.nextId, name := reviewPrJobType, data := data,
                          state := .waiting, attemptsMade := 0 }
  (e, { entries := q.entries ++ [e], nextId := q.nextId + 1 })

/-- Completion of a leased entry (worker handler returned normally):
BullMQ moves it to `completed`. -/
def completeEntry (e : QueueEntry) : QueueEntry := { e with state := .completed }

/-- Failure of a leased entry (worker handler threw), under the configured
policy `attempts: 3`, exponential backoff base 1000: `attemptsMade` is
bumped; while it is still below the ceiling the entry is delayed by
`backoffDelay attemptsMade` for automatic redelivery, otherwise it moves
to the permanent `failed` (dead-letter) set. -/
def failEntry (now : Nat) (e : QueueEntry) : QueueEntry :=
  let made := e.attemptsMade + 1
  if made < reviewQueueAttempts then
    { e with attemptsMade := made, state := .delayed (now + backoffDelay made) }
  else
    { e with attemptsMade := made, state := .failed }

/-- Whether the queue would ever hand this entry to a worker again:
waiting entries immediately, delayed entries once their timer expires;
`active`, `completed` and dead-lettered `failed` entries never. -/
def redeliverable (e : QueueEntry) : Bool :=
  match e.state with
  | .waiting => true
  | .delayed _ => true
  | _ => false

/-! ## Webhook ingestion (`src/routes/webhook.js`)

`POST /webhook/github`: verify the signature over the raw body, filter
the event kind and action, then inside `try { … }` upsert the repository,
upsert the pull request, insert the review job and enqueue; `catch`
returns 500. The response and the resulting record-store/queue state are
returned together. -/

/-- The parsed `pull_request` object fields the route reads. -/
structure PRPayload where
  number : Nat
  title : String
  userLogin : String
  state : String
deriving Repr, DecidableEq

/-- The parsed `repository` object fields the route reads. -/
structure RepoPayload where
  id : Nat
  full_name : String
deriving Repr, DecidableEq

/-- The parsed JSON body fields the route reads. -/
structure WebhookBody where
  action : String
  pull_request : PRPayload
  repository : RepoPayload
  /-- `req.body.installation?.id`; `none` when absent (the route then
  stores 0). -/
  installationId : Option Nat
deriving Repr, DecidableEq

/-- An inbound webhook request: the three headers the route reads, the
raw body captured by the `verify` hook of `express.json`, and the parsed
body. -/
structure WebhookRequest where
  /-- `x-hub-signature-256` header bytes; `none` when absent. -/
  signature : Option (List Nat)
  /-- `x-github-event` header. -/
  event : Option String
  /-- `x-github-delivery` header (logging only). -/
  deliveryId : Option String
  rawBody : List Nat
  body : WebhookBody
deriving Repr, DecidableEq

/-- The combined state the ingestion path reads and writes. -/
structure SystemState where
  db : Db
  queue : ReviewQueue
deriving Repr, DecidableEq

/-- The five responses `router.post('/github')` can produce. -/
inductive WebhookReply
  /-- `401 { error: 'Invalid signature' }` -/
  | invalidSignature
  /-- `200 { message: 'Event ignored' }` -/
  | eventIgnored
  /-- `200 { message: 'Action ignored' }` -/
  | actionIgnored
  /-- `500 { error: 'Failed to process webhook' }` -/
  | processingFailed
  /-- `200 { message: 'Webhook received', … }` -/
  | received (prNumber : Nat)
deriving Repr, DecidableEq

/-- HTTP status code of each reply. -/
def WebhookReply.statusCode : WebhookReply → Nat
  | .invalidSignature => 401
  | .eventIgnored => 200
  | .actionIgnored => 200
  | .processingFailed => 500
  | .received _ => 200

/-- `const relevantActions = ['opened', 'synchronize', 'reopened']`. -/
def relevantActions : List String := ["opened", "synchronize", "reopened"]

/-- `const [owner, repoName] = repository.full_name.split('/')`: array
destructuring keeps the first two fragments. -/
def splitFullName (s : String) : String × String :=
  match s.splitOn "/" with
  | owner :: repoName :: _ => (owner, repoName)
  | [owner] => (owner, "")
  | [] => ("", "")

/-- The `POST /webhook/github` handler (`src/routes/webhook.js:21-138`).
All statements of one request share the model timestamp `now`. The `try`
block commits each statement as it runs (no transaction), so when the
`review_jobs` statement raises, the repository and pull-request upserts
remain while the `catch` path returns 500 without reaching
`enqueueReview`. -/
def handleWebhook (st : SystemState) (now : Nat) (secret : List Nat)
    (req : WebhookRequest) : WebhookReply × SystemState :=
  let isValid := verifyGitHubSignature req.rawBody req.signature secret
  if isValid = false then (.invalidSignature, st)
  else if req.event ≠ some "pull_request" then (.eventIgnored, st)
  else if relevantActions.contains req.body.action = false then (.actionIgnored, st)
  else
    let ownerRepo := splitFullName req.body.repository.full_name
    let r1 := upsertRepository st.db now req.body.repository.id ownerRepo.2 ownerRepo.1
      (req.body.installationId.getD 0)
    let r2 := upsertPullRequest r1.2 now r1.1 req.body.pull_request.number
      req.body.pull_request.title req.body.pull_request.userLogin req.body.pull_request.state
    match insertReviewJobPending r2.2 now r2.1 with
    | .error _ => (.processingFailed, { st with db := r2.2 })
    | .ok db3 =>
      let q2 := (enqueueReview st.queue
        { prId := r2.1, repoId := r1.1, prNumber := req.body.pull_request.number,
          repoFullName := req.body.repository.full_name }).2
      (.received req.body.pull_request.number, { db := db3, queue := q2 })

/-! ## Worker (`src/worker.js`)

`processReviewJob` updates the job row(s) for the payload's `pr_id` to
`processing`, calls the external collaborators (GitHub fetch, AI review,
comment posting), stores the review and marks the row(s) `completed`; any
thrown error lands in the `catch`, which marks the row(s) `failed` with
the error message and rethrows so BullMQ applies its retry policy. The
collaborators are external, so each run is parameterized by where (if
anywhere) they fail and by the serialized review content. -/

/-- `UPDATE review_jobs SET status = 'processing', updated_at = NOW()
WHERE pr_id = $1` (`src/worker.js:33-38`): updates every matching row,
no error when none matches. -/
def updateJobsProcessing (db : Db) (now prId : Nat) : Db :=
  { db with review_jobs := db.review_jobs.map (fun j =>
      if j.pr_id == prId then { j with status := "processing", updated_at := now } else j) }

/-- `INSERT INTO reviews (pr_id, review_content, ai_model, created_at)
VALUES ($1, $2, $3, NOW()) RETURNING id` (`src/worker.js:66-71`). -/
def insertReview (db : Db) (now prId : Nat) (content : String) : Db :=
  { db with reviews := db.reviews ++
      [{ id := freshId (db.reviews.map (·.id)), pr_id := prId, review_content := content,
         ai_model := "groq-llama-3.3-70b", created_at := now }] }

/-- `UPDATE review_jobs SET status = 'completed', completed_at = NOW(),
updated_at = NOW() WHERE pr_id = $1` (`src/worker.js:83-88`). -/
def updateJobsCompleted (db : Db) (now prId : Nat) : Db :=
  { db with review_jobs := db.review_jobs.map (fun j =>
      if j.pr_id == prId then
        { j with status := "completed", completed_at := some now, updated_at := now }
      else j) }

/-- `UPDATE review_jobs SET status = 'failed', error_message = $1,
updated_at = NOW() WHERE pr_id = $2` (`src/worker.js:99-106`). -/
def updateJobsFailed (db : Db) (now prId : Nat) (msg : String) : Db :=
  { db with review_jobs := db.review_jobs.map (fun j =>
      if j.pr_id == prId then
        { j with status := "failed", error_message := some msg, updated_at := now }
      else j) }

/-- Where the external collaborator calls of one `processReviewJob` run
fail, if anywhere. `fetchPRData` and `reviewCodeWithAI` fail before the
review row is stored; `postReviewComment` fails after it; on `allOk`
every call returns. `content` is `JSON.stringify(aiReview)`. -/
inductive StepOutcome
  | fetchFailed (msg : String)
  | aiFailed (msg : String)
  | postFailed (content : String) (msg : String)
  | allOk (content : String)
deriving Repr, DecidableEq

/-- `return { success: true }` of `processReviewJob`. -/
structure ProcessResult where
  success : Bool
deriving Repr, DecidableEq

/-- One run of `processReviewJob` (`src/worker.js:23-110`) over the
record store, given the collaborator outcome: the returned value
(`Except` models the rethrow from the `catch` block) and the record
store afterwards. -/
def processReviewJob (db : Db) (now : Nat) (d : JobData) (o : StepOutcome) :
    Except String ProcessResult × Db :=
  let db1 := updateJobsProcessing db now d.prId
  match o with
  | .fetchFailed m => (.error m, updateJobsFailed db1 now d.prId m)
  | .aiFailed m => (.error m, updateJobsFailed db1 now d.prId m)
  | .postFailed c m =>
    let db2 := insertReview db1 now d.prId c
    (.error m, updateJobsFailed db2 now d.prId m)
  | .allOk c =>
    let db2 := insertReview db1 now d.prId c
    (.ok { success := true }, updateJobsCompleted db2 now d.prId)

/-- The successive record-store states after each SQL statement of one
`processReviewJob` run, in execution order (the state before the run is
not included). The first statement of every run is the `processing`
update; a failure run ends with the `failed` update from the `catch`
block; a success run ends with the `completed` update. -/
def attemptStates (db : Db) (now : Nat) (d : JobData) (o : StepOutcome) : List Db :=
  let db1 := updateJobsProcessing db now d.prId
  match o with
  | .fetchFailed m => [db1, updateJobsFailed db1 now d.prId m]
  | .aiFailed m => [db1, updateJobsFailed db1 now d.prId m]
  | .postFailed c m =>
    let db2 := insertReview db1 now d.prId c
    [db1, db2, updateJobsFailed db2 now d.prId m]
  | .allOk c =>
    let db2 := insertReview db1 now d.prId c
    [db1, db2, updateJobsCompleted db2 now d.prId]

/-- The worker callback (`src/worker.js:115-129`): jobs named
`JOB_TYPES.REVIEW_PR` go to `processReviewJob`; any other name throws
`Unknown job type` without touching the record store. -/
def workerHandle (db : Db) (now : Nat) (e : QueueEntry) (o : StepOutcome) :
    Except String ProcessResult × Db :=
  if e.name = reviewPrJobType then processReviewJob db now e.data o
  else (.error ("Unknown job type: " ++ e.name), db)

/-- One delivery of a queue entry to the worker: run the handler; a
normal return acknowledges the entry (`completed`), a throw fails it and
BullMQ's retry policy (`failEntry`) decides between backoff redelivery
and dead-lettering. -/
def deliverEntry (db : Db) (now : Nat) (e : QueueEntry) (o : StepOutcome) :
    Db × QueueEntry :=
  match workerHandle db now e o with
  | (.ok _, db2) => (db2, completeEntry e)
  | (.error _, db2) => (db2, failEntry now e)

/-- Drive one entry through successive (re)deliveries: each outcome in
the list is consumed by one delivery while the entry is still
redeliverable (waiting or delayed); once it is completed or
dead-lettered the remaining outcomes are not consumed — the queue never
hands the entry out again. -/
def runDeliveries (db : Db) (now : Nat) (e : QueueEntry) (os : List StepOutcome) :
    Db × QueueEntry :=
  os.foldl (fun (acc : Db × QueueEntry) o =>
    if redeliverable acc.2 then deliverEntry acc.1 now acc.2 o else acc) (db, e)

/-! ## Concrete sample values used by scenario theorems and witnesses -/

/-- Sample shared secret: the bytes of `"key"`. -/
def sampleSecret : List Nat := [107, 101, 121]

/-- Sample raw request body: the bytes of `"msg"`. -/
def sampleRawBody : List Nat := [109, 115, 103]

/-- An empty record store. -/
def emptyDb : Db :=
  { repositories := [], pull_requests := [], review_jobs := [], reviews := [] }

/-- An empty queue. -/
def emptyQueue : ReviewQueue := { entries := [], nextId := 1 }

/-- Empty record store and queue. -/
def emptyState : SystemState := { db := emptyDb, queue := emptyQueue }

/-- The spec's acceptance scenario: event kind `pull_request`, action
`opened`, valid signature over the raw body, repository external id 42,
change-request sequence number 7. -/
def openedRequest : WebhookRequest :=
  { signature := some (expectedSignature sampleRawBody sampleSecret),
    event := some "pull_request", deliveryId := some "delivery-1",
    rawBody := sampleRawBody,
    body := { action := "opened",
              pull_request := { number := 7, title := "Add feature",
                                userLogin := "alice", state := "open" },
              repository := { id := 42, full_name := "acme/widgets" },
              installationId := some 5 } }

/-- The same event with action `closed` (the spec's ignore scenario). -/
def closedRequest : WebhookRequest :=
  { openedRequest with body := { openedRequest.body with action := "closed" } }

/-- A `review_jobs` row as the ingestion path means to create it:
`pending`, `attempts = 0`, no error, no completion timestamp. -/
def pendingJobRow : JobRow :=
  { id := 1, pr_id := 1, status := "pending", attempts := 0, error_message := none,
    created_at := 0, updated_at := 0, completed_at := none }

/-- A record store holding exactly that pending job. -/
def dbWithPendingJob : Db := { emptyDb with review_jobs := [pendingJobRow] }

/-- The queue payload for that job. -/
def sampleJobData : JobData :=
  { prId := 1, repoId := 1, prNumber := 7, repoFullName := "acme/widgets" }

/-- A freshly enqueued entry for that payload. -/
def freshEntry : QueueEntry :=
  { id := 1, name := reviewPrJobType, data := sampleJobData, state := .waiting,
    attemptsMade := 0 }

/-- The classification the two guards at `src/routes/webhook.js:44` and
`:59` implement: an event is processed further iff the `x-github-event`
header is `pull_request` and the action is one of
`opened`/`synchronize`/`reopened`. -/
def eventInScope (event : Option String) (action : String) : Bool :=
  event == some "pull_request" && relevantActions.contains action

/-- The net effect of one `processReviewJob` run on a `review_jobs` row
matching the payload's `pr_id`: the `catch` block overwrites the
`processing` marker with `failed` plus the error message, a fully
successful run ends at `completed` with `completed_at` stamped. Only
`status`, `error_message`, `completed_at` and `updated_at` appear here —
`id`, `pr_id`, `attempts` and `created_at` are never touched. -/
def jobNetEffect (now : Nat) (o : StepOutcome) (j : JobRow) : JobRow :=
  match o with
  | .fetchFailed m | .aiFailed m | .postFailed _ m =>
    { j with status := "failed", error_message := some m, updated_at := now }
  | .allOk _ =>
    { j with status := "completed", completed_at := some now, updated_at := now }

/-- A `pull_requests` row used by the recorder scenarios. -/
def prRowOld : PRRow :=
  { id := 1, repo_id := 1, pr_number := 42, title := "Old title", author := "alice",
    status := "open", created_at := 0, updated_at := 0 }

/-- A record store holding exactly that pull-request row. -/
def dbWithPR : Db := { emptyDb with pull_requests := [prRowOld] }

/-- Flip bit `k` of byte `j` of a byte list (a single-bit mutation of a
message or signature). -/
def flipBit : Nat → Nat → List Nat → List Nat
  | _, _, [] => []
  | 0, k, b :: t => (b ^^^ (1 <<< k)) :: t
  | j + 1, k, b :: t => b :: flipBit j k t

/-! ## Helper lemmas (shared; not claim theorems) -/

/-- Mapping a field unchanged by the per-row update `g` through a guarded
row update leaves the field column unchanged. -/
theorem map_if_update {α β : Type} (l : List α) (p : α → Bool)
    (g : α → α) (fld : α → β) (h : ∀ j, fld (g j) = fld j) :
    (l.map (fun j => if p j then g j else j)).map fld = l.map fld := by
  induction l with
  | nil => rfl
  | cons a t ih => by_cases hp : p a <;> simp [hp, h, ih]

/-- A guarded row update rewrites a field column pointwise. -/
theorem map_if_update_pointwise {α β : Type} (l : List α) (p : α → Bool)
    (g : α → α) (fld : α → β) :
    (l.map (fun j => if p j then g j else j)).map fld =
      l.map (fun j => if p j then fld (g j) else fld j) := by
  induction l with
  | nil => rfl
  | cons a t ih => by_cases hp : p a <;> simp [hp, ih]

/-- The repository upsert only touches the `repositories` table. -/
theorem upsertRepository_frame (db : Db) (now gid : Nat) (name owner : String)
    (inst : Nat) :
    (upsertRepository db now gid name owner inst).2.pull_requests = db.pull_requests ∧
    (upsertRepository db now gid name owner inst).2.review_jobs = db.review_jobs ∧
    (upsertRepository db now gid name owner inst).2.reviews = db.reviews := by
  unfold upsertRepository
  cases db.repositories.find? (fun r => r.github_repo_id == gid) <;> simp

/-- The pull-request upsert only touches the `pull_requests` table. -/
theorem upsertPullRequest_frame (db : Db) (now repoId prNumber : Nat)
    (title author status : String) :
    (upsertPullRequest db now repoId prNumber title author status).2.repositories = db.repositories ∧
    (upsertPullRequest db now repoId prNumber title author status).2.review_jobs = db.review_jobs ∧
    (upsertPullRequest db now repoId prNumber title author status).2.reviews = db.reviews := by
  unfold upsertPullRequest
  cases db.pull_requests.find? (fun r => r.repo_id == repoId && r.pr_number == prNumber) <;> simp

/-- The ingestion path never changes the `review_jobs` table: the only
statement that addresses it is the `ON CONFLICT (pr_id)` upsert, which
raises 42P10 before writing. -/
theorem handleWebhook_review_jobs (st : SystemState) (now : Nat) (secret : List Nat)
    (req : WebhookRequest) :
    (handleWebhook st now secret req).2.db.review_jobs = st.db.review_jobs := by
  simp only [handleWebhook]
  cases hv : verifyGitHubSignature req.rawBody req.signature secret
  · simp
  · simp only [Bool.true_eq_false, if_false]
    by_cases h2 : req.event = some "pull_request"
    · simp only [h2, ne_eq, not_true_eq_false, if_false]
      cases h3 : relevantActions.contains req.body.action
      · simp
      · simp only [Bool.true_eq_false, if_false, insertReviewJobPending, reduceIte]
        exact ((upsertPullRequest_frame _ _ _ _ _ _ _).2.1).trans
          ((upsertRepository_frame _ _ _ _ _ _).2.1)
    · simp [h2]

/-- The ingestion path never enqueues: every run either returns before
the `try` block or hits the 42P10 `catch`, which returns 500 without
reaching `enqueueReview`. -/
theorem handleWebhook_queue (st : SystemState) (now : Nat) (secret : List Nat)
    (req : WebhookRequest) :
    (handleWebhook st now secret req).2.queue = st.queue := by
  simp only [handleWebhook]
  cases hv : verifyGitHubSignature req.rawBody req.signature secret
  · simp
  · simp only [Bool.true_eq_false, if_false]
    by_cases h2 : req.event = some "pull_request"
    · simp only [h2, ne_eq, not_true_eq_false, if_false]
      cases h3 : relevantActions.contains req.body.action
      · simp
      · simp [insertReviewJobPending]
    · simp [h2]

/-- Guarded row updates compose when the guard field is preserved. -/
theorem map_if_update_comp {α : Type} (l : List α) (p : α → Bool) (g1 g2 g : α → α)
    (hp : ∀ j, p (g1 j) = p j) (hg : ∀ j, g2 (g1 j) = g j) :
    (l.map (fun j => if p j then g1 j else j)).map (fun j => if p j then g2 j else j) =
      l.map (fun j => if p j then g j else j) := by
  induction l with
  | nil => rfl
  | cons a t ih => by_cases hpa : p a <;> simp [hpa, hp, hg, ih]

/-- One `processReviewJob` run transforms `review_jobs` pointwise: rows
matching the payload's `pr_id` receive `jobNetEffect`, all other rows are
untouched, and no row is created or deleted. -/
theorem processReviewJob_review_jobs (db : Db) (now : Nat) (d : JobData) (o : StepOutcome) :
    (processReviewJob db now d o).2.review_jobs =
      db.review_jobs.map (fun j => if j.pr_id == d.prId then jobNetEffect now o j else j) := by
  cases o <;>
    simp only [processReviewJob, updateJobsProcessing, updateJobsFailed,
      updateJobsCompleted, insertReview, jobNetEffect] <;>
    exact map_if_update_comp _ _ _ _ _ (fun j => rfl) (fun j => rfl)

/-- The worker callback leaves `review_jobs` pointwise-updated in the same
way (non-`review-pr` jobs touch nothing). -/
theorem workerHandle_attempts (db : Db) (now : Nat) (e : QueueEntry) (o : StepOutcome) :
    (workerHandle db now e o).2.review_jobs.map (fun j => j.attempts) =
      db.review_jobs.map (fun j => j.attempts) := by
  unfold workerHandle
  by_cases hn : e.name = reviewPrJobType
  · rw [if_pos hn, processReviewJob_review_jobs]
    exact map_if_update _ _ _ _ (fun j => by cases o <;> rfl)
  · rw [if_neg hn]

/-- One delivery never changes the `attempts` column. -/
theorem deliverEntry_attempts (db : Db) (now : Nat) (e : QueueEntry) (o : StepOutcome) :
    (deliverEntry db now e o).1.review_jobs.map (fun j => j.attempts) =
      db.review_jobs.map (fun j => j.attempts) := by
  unfold deliverEntry
  rcases h : workerHandle db now e o with ⟨res, db2⟩
  have h2 : db2.review_jobs.map (fun j => j.attempts) =
      db.review_jobs.map (fun j => j.attempts) := by
    have := workerHandle_attempts db now e o
    rw [h] at this
    exact this
  cases res <;> simp [h2]

/-- Unfolding one step of `runDeliveries`. -/
theorem runDeliveries_cons (db : Db) (now : Nat) (e : QueueEntry) (o : StepOutcome)
    (os : List StepOutcome) :
    runDeliveries db now e (o :: os) =
      (let x := if redeliverable e then deliverEntry db now e o else (db, e)
       runDeliveries x.1 now x.2 os) := by
  simp only [runDeliveries, List.foldl_cons]

/-- No sequence of (re)deliveries ever changes the `attempts` column. -/
theorem runDeliveries_attempts (now : Nat) (os : List StepOutcome) :
    ∀ (db : Db) (e : QueueEntry),
      (runDeliveries db now e os).1.review_jobs.map (fun j => j.attempts) =
        db.review_jobs.map (fun j => j.attempts) := by
  induction os with
  | nil => intro db e; rfl
  | cons o t ih =>
    intro db e
    rw [runDeliveries_cons]
    by_cases hr : redeliverable e
    · simp only [hr, if_pos]
      exact (ih _ _).trans (deliverEntry_attempts db now e o)
    · simp only [hr, if_neg, ite_false]
      exact ih db e

/-- A dead-lettered (or completed) entry is never delivered again: the
run loop is the identity on it. -/
theorem runDeliveries_not_redeliverable (db : Db) (now : Nat) (e : QueueEntry)
    (os : List StepOutcome) (h : redeliverable e = false) :
    runDeliveries db now e os = (db, e) := by
  induction os with
  | nil => rfl
  | cons o t ih =>
    rw [runDeliveries_cons]
    simp only [h, Bool.false_eq_true, if_false]
    exact ih

/-- Rows matching the payload's `pr_id` read `processing` right after the
first statement of a worker run. -/
theorem processing_rows_marked (l : List JobRow) (now prId : Nat) :
    ((l.map (fun j => if j.pr_id == prId then
        { j with status := "processing", updated_at := now } else j)).filter
      (fun j => j.pr_id == prId)).all (fun j => j.status == "processing") = true := by
  induction l with
  | nil => rfl
  | cons a t ih => by_cases hp : a.pr_id == prId <;> simp_all

/-! ## Claim theorems -/

/-- C1: the spec's acceptance scenario — event kind `pull_request`, action
`opened`, valid signature, repository external id 42, sequence number 7 —
is claimed to produce a 200 response, a Job record with `status = pending`
and one queue entry, with enqueue success confirmed before the 200. The
code cannot do this: `INSERT INTO review_jobs … ON CONFLICT (pr_id)`
(`src/routes/webhook.js:108-114`) needs a unique or exclusion constraint
on `review_jobs.pr_id` for conflict-target inference, and
`database/schema.sql` provides only the non-unique index `idx_job_pr`, so
PostgreSQL raises 42P10 on every execution; the `catch` answers 500 and
`enqueueReview` is never reached. Evaluated at the scenario (signature
valid, shown by the last component): the reply is the 500
`processingFailed`, no `review_jobs` row exists and the queue is empty.
The repository's own test script (`src/test-webhook.js`, "Valid PR
Opened") expects 200 here, so the code contradicts its own tests. -/
theorem c1_opened_scenario_returns_500_without_job_or_entry :
    ((handleWebhook emptyState 10 sampleSecret openedRequest).1,
     (handleWebhook emptyState 10 sampleSecret openedRequest).1.statusCode,
     (handleWebhook emptyState 10 sampleSecret openedRequest).2.db.review_jobs,
     (handleWebhook emptyState 10 sampleSecret openedRequest).2.queue.entries,
     verifyGitHubSignature openedRequest.rawBody openedRequest.signature sampleSecret) =
    (.processingFailed, 500, [], [], true) := by decide

/-- C2 counterexample: enqueueing the identical payload twice — the second
call while the entry created by the first is still `waiting` — leaves two
waiting entries with that payload in the queue, because
`enqueueReview` calls `reviewQueue.add` with no `jobId`, so no
key-based deduplication ever happens; the claim says the second enqueue
must not create a second entry. -/
theorem c2_counterexample_second_entry_created :
    ((enqueueReview (enqueueReview emptyQueue sampleJobData).2 sampleJobData).2.entries.filter
      (fun e => e.state == EntryState.waiting && e.data == sampleJobData)).length = 2 := by
  decide

/-- C2 amended: delivering the identical inbound event twice creates no
Job record at all (the `review_jobs` upsert raises 42P10, so ingestion
never writes that table, and never enqueues); and the queue layer itself
is not idempotent over any job key: every `enqueueReview` call appends a
fresh entry with a new auto-generated id even while an identical entry is
still waiting, so re-delivery would duplicate queue entries rather than
merge them. -/
theorem c2_amended_no_job_row_and_enqueue_not_idempotent (st : SystemState) (now : Nat)
    (secret : List Nat) (req : WebhookRequest) (q : ReviewQueue) (d : JobData) :
    (handleWebhook st now secret req).2.db.review_jobs = st.db.review_jobs ∧
    (handleWebhook st now secret req).2.queue = st.queue ∧
    (enqueueReview q d).2.entries = q.entries ++ [(enqueueReview q d).1] ∧
    (enqueueReview (enqueueReview q d).2 d).2.entries =
      q.entries ++ [(enqueueReview q d).1, (enqueueReview (enqueueReview q d).2 d).1] ∧
    (enqueueReview q d).1.id ≠ (enqueueReview (enqueueReview q d).2 d).1.id ∧
    (enqueueReview q d).1.data = d ∧
    (enqueueReview (enqueueReview q d).2 d).1.data = d ∧
    (enqueueReview q d).1.state = .waiting ∧
    (enqueueReview (enqueueReview q d).2 d).1.state = .waiting := by
  refine ⟨handleWebhook_review_jobs st now secret req, handleWebhook_queue st now secret req,
    ?_, ?_, ?_, rfl, rfl, rfl, rfl⟩
  · rfl
  · simp [enqueueReview]
  · simp only [enqueueReview]
    omega

/-- C3 counterexample: the spec's retry scenario — the collaborator call
fails twice, then succeeds on the third attempt — run against a `pending`
Job row with `attempts = 0`: the worker never executes any statement that
increments the `attempts` column (`src/worker.js` updates only `status`,
`error_message`, `completed_at`, `updated_at`), so the Job ends with
`status = completed` but `attempts = 0`, not `attempts = 3` as claimed. -/
theorem c3_counterexample_attempts_stay_zero :
    ((runDeliveries dbWithPendingJob 50 freshEntry
        [.fetchFailed "err one", .fetchFailed "err two", .allOk "review"]).1.review_jobs.map
      (fun j => (j.status, j.attempts))) = [("completed", 0)] ∧
    ¬ ((runDeliveries dbWithPendingJob 50 freshEntry
        [.fetchFailed "err one", .fetchFailed "err two", .allOk "review"]).1.review_jobs.map
      (fun j => j.attempts)) = [3] := by decide

/-- C3 amended: each (re)delivery re-enters the Job at `processing` — the
first statement of every `processReviewJob` run is the `processing`
update, after which every row matching the payload's `pr_id` reads
`processing` — but the worker never modifies the `attempts` column: it is
preserved by every single run and by every sequence of redeliveries, so
after the fail-twice-then-succeed scenario the Job reads
`status = completed` with `attempts` still at its initial value 0. -/
theorem c3_amended_processing_reentry_attempts_constant (db : Db) (now : Nat) (d : JobData)
    (o : StepOutcome) (e : QueueEntry) (os : List StepOutcome) :
    (attemptStates db now d o).head? = some (updateJobsProcessing db now d.prId) ∧
    ((updateJobsProcessing db now d.prId).review_jobs.filter
      (fun j => j.pr_id == d.prId)).all (fun j => j.status == "processing") = true ∧
    (processReviewJob db now d o).2.review_jobs.map (fun j => j.attempts) =
      db.review_jobs.map (fun j => j.attempts) ∧
    (runDeliveries db now e os).1.review_jobs.map (fun j => j.attempts) =
      db.review_jobs.map (fun j => j.attempts) ∧
    ((runDeliveries dbWithPendingJob 50 freshEntry
        [.fetchFailed "err one", .fetchFailed "err two", .allOk "review"]).1.review_jobs.map
      (fun j => (j.pr_id, j.status, j.attempts))) = [(1, "completed", 0)] := by
  refine ⟨by cases o <;> rfl, processing_rows_marked db.review_jobs now d.prId, ?_, ?_, by decide⟩
  · rw [processReviewJob_review_jobs]
    exact map_if_update _ _ _ _ (fun j => by cases o <;> rfl)
  · exact runDeliveries_attempts now os db e

/-- A guarded row update with no matching row is the identity. -/
theorem map_if_update_no_match {α : Type} (l : List α) (p : α → Bool) (g : α → α)
    (h : l.all (fun j => !(p j)) = true) :
    l.map (fun j => if p j then g j else j) = l := by
  induction l with
  | nil => rfl
  | cons a t ih =>
    simp only [List.all_cons, Bool.and_eq_true, Bool.not_eq_true'] at h
    simp [h.1, ih h.2]

/-- C4: retry policy of the configured queue (`attempts: 3`, exponential
backoff, base delay 1000 ms): below the ceiling a failed delivery is
rescheduled after `1000 · 2^(k-1)` ms for retry `k` — base one time-unit,
doubling each attempt — and at the ceiling the entry moves to the
permanent dead-letter state: it is never redeliverable again and any
further run loop leaves it (and the record store) untouched. In the
spec's four-consecutive-failures scenario the entry ends dead-lettered
after exactly 3 attempts, the Job row reads `status = failed` with the
third attempt's error, and the fourth failure outcome is never consumed:
the run equals the three-failure run. -/
theorem c4_backoff_ceiling_deadletter (e : QueueEntry) (now : Nat) (db : Db)
    (os : List StepOutcome) (k : Nat) :
    backoffDelay 1 = 1000 ∧
    backoffDelay (k + 2) = 2 * backoffDelay (k + 1) ∧
    (e.attemptsMade + 1 < reviewQueueAttempts →
      failEntry now e = { e with attemptsMade := e.attemptsMade + 1,
                                 state := .delayed (now + backoffDelay (e.attemptsMade + 1)) }) ∧
    (reviewQueueAttempts ≤ e.attemptsMade + 1 →
      failEntry now e = { e with attemptsMade := e.attemptsMade + 1, state := .failed }) ∧
    redeliverable { e with state := .failed } = false ∧
    runDeliveries db now { e with state := .failed } os = (db, { e with state := .failed }) ∧
    (runDeliveries dbWithPendingJob 50 freshEntry
        [.fetchFailed "e one", .fetchFailed "e two", .fetchFailed "e three",
         .fetchFailed "e four"]).2 =
      { freshEntry with state := .failed, attemptsMade := 3 } ∧
    ((runDeliveries dbWithPendingJob 50 freshEntry
        [.fetchFailed "e one", .fetchFailed "e two", .fetchFailed "e three",
         .fetchFailed "e four"]).1.review_jobs.map
      (fun j => (j.status, j.error_message))) = [("failed", some "e three")] ∧
    runDeliveries dbWithPendingJob 50 freshEntry
        [.fetchFailed "e one", .fetchFailed "e two", .fetchFailed "e three",
         .fetchFailed "e four"] =
      runDeliveries dbWithPendingJob 50 freshEntry
        [.fetchFailed "e one", .fetchFailed "e two", .fetchFailed "e three"] := by
  refine ⟨rfl, ?_, ?_, ?_, rfl, runDeliveries_not_redeliverable db now _ os rfl,
    by decide, by decide, by decide⟩
  · simp [backoffDelay, pow_succ]
    ring
  · intro h
    simp [failEntry, h]
  · intro h
    simp only [failEntry]
    rw [if_neg (by omega)]

/-- C4 witness: the general retry/dead-letter law of
`c4_backoff_ceiling_deadletter`, instantiated: a first failure at time 50
delays the fresh entry by the 1000 ms base backoff; a failure on the
third attempt dead-letters the entry. -/
theorem c4_witness :
    failEntry 50 freshEntry =
      { freshEntry with attemptsMade := freshEntry.attemptsMade + 1,
                         state := .delayed (50 + backoffDelay (freshEntry.attemptsMade + 1)) } ∧
    failEntry 50 { freshEntry with attemptsMade := 2 } =
      { freshEntry with attemptsMade := 2 + 1, state := .failed } :=
  ⟨(c4_backoff_ceiling_deadletter freshEntry 50 emptyDb [] 0).2.2.1 (by decide),
   (c4_backoff_ceiling_deadletter { freshEntry with attemptsMade := 2 } 50 emptyDb [] 0).2.2.2.1
     (by decide)⟩

/-- C9: `completed_at` is written only on the transition into `completed`.
The `processing` and `failed` updates and the `reviews` insert preserve
every row's `completed_at`; the ingestion pending-upsert's text never
mentions `completed_at` (existing rows keep theirs, an inserted row gets
NULL), and the statement ingestion actually executes raises 42P10 before
writing anything at all; the `completed` update stamps
`completed_at = now` exactly on the rows it transitions to `completed`;
across the three statements of a fully successful run the column is
written exactly once, by the final `completed` transition; and no failing
run ever writes it. -/
theorem c9_completed_at_set_only_on_completion (db : Db) (now prId : Nat)
    (d : JobData) (m c : String) :
    (updateJobsProcessing db now prId).review_jobs.map (fun j => j.completed_at) =
      db.review_jobs.map (fun j => j.completed_at) ∧
    (updateJobsFailed db now prId m).review_jobs.map (fun j => j.completed_at) =
      db.review_jobs.map (fun j => j.completed_at) ∧
    (insertReview db now prId c).review_jobs.map (fun j => j.completed_at) =
      db.review_jobs.map (fun j => j.completed_at) ∧
    (reviewJobUpsertClause db now prId).review_jobs.map (fun j => j.completed_at) =
      db.review_jobs.map (fun j => j.completed_at) ++
        (if (db.review_jobs.find? (fun j => j.pr_id == prId)).isSome then [] else [none]) ∧
    insertReviewJobPending db now prId = .error .noMatchingUniqueConstraint ∧
    (updateJobsCompleted db now prId).review_jobs.map (fun j => (j.completed_at, j.status)) =
      db.review_jobs.map (fun j => if j.pr_id == prId then (some now, "completed")
                                   else (j.completed_at, j.status)) ∧
    (attemptStates db now d (.allOk c)).map
        (fun s => s.review_jobs.map (fun j => j.completed_at)) =
      [db.review_jobs.map (fun j => j.completed_at),
       db.review_jobs.map (fun j => j.completed_at),
       db.review_jobs.map (fun j => if j.pr_id == d.prId then some now else j.completed_at)] ∧
    (processReviewJob db now d (.fetchFailed m)).2.review_jobs.map (fun j => j.completed_at) =
      db.review_jobs.map (fun j => j.completed_at) ∧
    (processReviewJob db now d (.aiFailed m)).2.review_jobs.map (fun j => j.completed_at) =
      db.review_jobs.map (fun j => j.completed_at) ∧
    (processReviewJob db now d (.postFailed c m)).2.review_jobs.map (fun j => j.completed_at) =
      db.review_jobs.map (fun j => j.completed_at) := by
  refine ⟨map_if_update _ _ _ _ (fun j => rfl), map_if_update _ _ _ _ (fun j => rfl), rfl,
    ?_, rfl, ?_, ?_, ?_, ?_, ?_⟩
  · unfold reviewJobUpsertClause
    cases h : db.review_jobs.find? (fun j => j.pr_id == prId) with
    | some r =>
      simp only [Option.isSome_some, reduceIte, List.append_nil]
      exact map_if_update _ _ _ _ (fun j => rfl)
    | none =>
      simp only [Option.isSome_none, reduceIte]
      simp [List.map_append]
  · exact map_if_update_pointwise _ _ _ _
  · simp only [attemptStates, List.map_cons, List.map_nil, List.cons.injEq, and_true]
    refine ⟨map_if_update _ _ _ _ (fun j => rfl), ?_, ?_⟩
    · exact map_if_update _ _ _ _ (fun j => rfl)
    · have h1 : (updateJobsCompleted (insertReview
          (updateJobsProcessing db now d.prId) now d.prId c) now d.prId) =
          (processReviewJob db now d (.allOk c)).2 := rfl
      rw [h1, processReviewJob_review_jobs]
      exact map_if_update_pointwise _ _ _ _
  · rw [processReviewJob_review_jobs]
    exact map_if_update _ _ _ _ (fun j => rfl)
  · rw [processReviewJob_review_jobs]
    exact map_if_update _ _ _ _ (fun j => rfl)
  · rw [processReviewJob_review_jobs]
    exact map_if_update _ _ _ _ (fun j => rfl)

/-- C10: the worker path never creates (or deletes) a Job record. Every
run maps `review_jobs` pointwise: the transform is keyed by the payload's
`pr_id`, non-matching rows pass through untouched, and `jobNetEffect`
shows only `status`, `error_message`, `completed_at` and `updated_at` can
change — row count and the `id`/`pr_id`/`attempts`/`created_at` columns
are preserved by every run. A fully successful run returns
`{ success: true }` unconditionally, so when no row matches the payload's
`pr_id` it still reports success with the table completely unchanged
(zero rows changed). -/
theorem c10_worker_updates_only_existing_rows (db : Db) (now : Nat) (d : JobData)
    (o : StepOutcome) (c : String) :
    (processReviewJob db now d o).2.review_jobs =
      db.review_jobs.map (fun j => if j.pr_id == d.prId then jobNetEffect now o j else j) ∧
    (processReviewJob db now d o).2.review_jobs.length = db.review_jobs.length ∧
    (processReviewJob db now d o).2.review_jobs.map
        (fun j => (j.id, j.pr_id, j.attempts, j.created_at)) =
      db.review_jobs.map (fun j => (j.id, j.pr_id, j.attempts, j.created_at)) ∧
    (processReviewJob db now d (.allOk c)).1 = .ok { success := true } ∧
    (db.review_jobs.all (fun j => !(j.pr_id == d.prId)) = true →
      (processReviewJob db now d (.allOk c)).2.review_jobs = db.review_jobs) := by
  refine ⟨processReviewJob_review_jobs db now d o, ?_, ?_, rfl, ?_⟩
  · rw [processReviewJob_review_jobs]
    exact List.length_map _ _
  · rw [processReviewJob_review_jobs]
    exact map_if_update _ _ _ _ (fun j => by cases o <;> rfl)
  · intro h
    rw [processReviewJob_review_jobs]
    exact map_if_update_no_match _ _ _ h

/-- C10 witness: `c10_worker_updates_only_existing_rows` at a store whose
only Job row has `pr_id = 1` while the payload carries `pr_id = 99`: the
run reports success and the `review_jobs` table is unchanged. -/
theorem c10_witness :
    dbWithPendingJob.review_jobs.all (fun j => !(j.pr_id == (99 : Nat))) = true ∧
    (processReviewJob dbWithPendingJob 7
        { prId := 99, repoId := 1, prNumber := 7, repoFullName := "acme/widgets" }
        (.allOk "review")).1 = .ok { success := true } ∧
    (processReviewJob dbWithPendingJob 7
        { prId := 99, repoId := 1, prNumber := 7, repoFullName := "acme/widgets" }
        (.allOk "review")).2.review_jobs = dbWithPendingJob.review_jobs :=
  ⟨by decide,
   (c10_worker_updates_only_existing_rows dbWithPendingJob 7
      { prId := 99, repoId := 1, prNumber := 7, repoFullName := "acme/widgets" }
      (.allOk "review") "review").2.2.2.1,
   (c10_worker_updates_only_existing_rows dbWithPendingJob 7
      { prId := 99, repoId := 1, prNumber := 7, repoFullName := "acme/widgets" }
      (.allOk "review") "review").2.2.2.2 (by decide)⟩

/-- C6: a request whose signature fails verification is rejected with 401
immediately: the handler returns before the event filter and before the
`try` block, so nothing is persisted (the whole record store is untouched)
and nothing is enqueued. -/
theorem c6_invalid_signature_rejected_without_side_effects (st : SystemState) (now : Nat)
    (secret : List Nat) (req : WebhookRequest)
    (h : verifyGitHubSignature req.rawBody req.signature secret = false) :
    handleWebhook st now secret req = (.invalidSignature, st) ∧
    (handleWebhook st now secret req).1.statusCode = 401 ∧
    (handleWebhook st now secret req).2.db = st.db ∧
    (handleWebhook st now secret req).2.queue = st.queue := by
  have h1 : handleWebhook st now secret req = (.invalidSignature, st) := by
    simp only [handleWebhook]
    rw [if_pos h]
  exact ⟨h1, by rw [h1]; rfl, by rw [h1], by rw [h1]⟩

/-- C6 witness: the opened scenario carrying the header bytes of `"bad"`
instead of a valid signature is answered 401 with the state untouched. -/
theorem c6_witness :
    verifyGitHubSignature openedRequest.rawBody (some [98, 97, 100]) sampleSecret = false ∧
    handleWebhook emptyState 10 sampleSecret
      { openedRequest with signature := some [98, 97, 100] } =
      (.invalidSignature, emptyState) := by
  have h : verifyGitHubSignature openedRequest.rawBody (some [98, 97, 100]) sampleSecret
      = false := by decide
  exact ⟨h, (c6_invalid_signature_rejected_without_side_effects emptyState 10 sampleSecret
    { openedRequest with signature := some [98, 97, 100] } h).1⟩

/-- C7: with a verified signature, the handler takes one of the two
ignore exits exactly when the event is out of scope
(`eventInScope`: event kind `pull_request` and action in
`opened`/`synchronize`/`reopened`); every out-of-scope combination is
acknowledged with a 200 and short-circuits with the whole state (record
store and queue) untouched. In particular the spec's scenario — a
`pull_request` event with action `closed` — yields the 200
`actionIgnored` reply with no Job row and no queue entry. -/
theorem c7_out_of_scope_ignored_before_any_write (st : SystemState) (now : Nat)
    (secret : List Nat) (req : WebhookRequest)
    (hv : verifyGitHubSignature req.rawBody req.signature secret = true) :
    (((handleWebhook st now secret req).1 = .eventIgnored ∨
      (handleWebhook st now secret req).1 = .actionIgnored) ↔
        eventInScope req.event req.body.action = false) ∧
    (eventInScope req.event req.body.action = false →
      (handleWebhook st now secret req).2 = st ∧
      (handleWebhook st now secret req).1.statusCode = 200) ∧
    handleWebhook emptyState 10 sampleSecret closedRequest = (.actionIgnored, emptyState) ∧
    WebhookReply.statusCode .actionIgnored = 200 ∧
    (handleWebhook emptyState 10 sampleSecret closedRequest).2.db.review_jobs = [] ∧
    (handleWebhook emptyState 10 sampleSecret closedRequest).2.queue.entries = [] := by
  have hc : ¬ (verifyGitHubSignature req.rawBody req.signature secret = false) := by
    rw [hv]; decide
  by_cases h2 : req.event = some "pull_request"
  · cases h3 : relevantActions.contains req.body.action
    · have hh : handleWebhook st now secret req = (.actionIgnored, st) := by
        simp only [handleWebhook]
        rw [if_neg hc, if_neg (not_not_intro h2), if_pos h3]
      have hscope : eventInScope req.event req.body.action = false := by
        unfold eventInScope
        rw [h2, h3, Bool.and_false]
      refine ⟨?_, fun _ => by rw [hh]; exact ⟨rfl, rfl⟩, by decide, rfl, by decide, by decide⟩
      rw [hh, hscope]
      simp
    · have hh : (handleWebhook st now secret req).1 = .processingFailed := by
        simp only [handleWebhook]
        rw [if_neg hc, if_neg (not_not_intro h2), if_neg (by rw [h3]; decide),
          insertReviewJobPending]
      have hscope : eventInScope req.event req.body.action = true := by
        unfold eventInScope
        rw [h2, h3]
        decide
      refine ⟨?_, ?_, by decide, rfl, by decide, by decide⟩
      · rw [hh, hscope]
        simp
      · intro hfalse
        rw [hscope] at hfalse
        exact absurd hfalse (by decide)
  · have hh : handleWebhook st now secret req = (.eventIgnored, st) := by
      simp only [handleWebhook]
      rw [if_neg hc, if_pos h2]
    have hscope : eventInScope req.event req.body.action = false := by
      unfold eventInScope
      rw [beq_eq_false_iff_ne.mpr h2, Bool.false_and]
    refine ⟨?_, fun _ => by rw [hh]; exact ⟨rfl, rfl⟩, by decide, rfl, by decide, by decide⟩
    rw [hh, hscope]
    simp

/-- C7 witness: the closed-action scenario satisfies the signature
hypothesis and, being out of scope, is acknowledged 200 with the state
untouched. -/
theorem c7_witness :
    verifyGitHubSignature closedRequest.rawBody closedRequest.signature sampleSecret = true ∧
    eventInScope closedRequest.event closedRequest.body.action = false ∧
    (handleWebhook emptyState 10 sampleSecret closedRequest).2 = emptyState ∧
    (handleWebhook emptyState 10 sampleSecret closedRequest).1.statusCode = 200 := by
  have hv : verifyGitHubSignature closedRequest.rawBody closedRequest.signature sampleSecret
      = true := by decide
  have hs : eventInScope closedRequest.event closedRequest.body.action = false := by decide
  have happ := (c7_out_of_scope_ignored_before_any_write emptyState 10 sampleSecret
    closedRequest hv).2.1 hs
  exact ⟨hv, hs, happ.1, happ.2⟩

/-- C8 counterexample: the recorder's pull-request upsert at a store
already holding the row `(repo 1, PR 42, title "Old title", author
"alice", status "open")`, fed the same natural key with title
"New title", author "bob", status "closed": the `DO UPDATE` clause
(`src/routes/webhook.js:92-95`) sets only `title`, `status` and
`updated_at`, so the stored author remains "alice" — the claim that the
upsert overwrites the mutable field `author` on conflict is false. -/
theorem c8_counterexample_author_not_overwritten :
    ((upsertPullRequest dbWithPR 9 1 42 "New title" "bob" "closed").2.pull_requests.map
      (fun r => (r.title, r.author, r.status))) = [("New title", "alice", "closed")] ∧
    ¬ ((upsertPullRequest dbWithPR 9 1 42 "New title" "bob" "closed").2.pull_requests.map
      (fun r => r.author)) = ["bob"] := by decide

/-- The hex-digit map is injective (digits `0-9` land in `48-57`, values
`10+` land in `97+`; the ranges are disjoint). -/
theorem hexDigitByte_inj (m n : Nat) (h : hexDigitByte m = hexDigitByte n) : m = n := by
  unfold hexDigitByte at h
  split_ifs at h <;> omega

/-- Hex rendering of byte lists is injective. -/
theorem bytesToHexBytes_inj : ∀ (a b : List Nat),
    bytesToHexBytes a = bytesToHexBytes b → a = b
  | [], [], _ => rfl
  | [], _ :: _, h => by simp [bytesToHexBytes] at h
  | _ :: _, [], h => by simp [bytesToHexBytes] at h
  | x :: xs, y :: ys, h => by
    simp only [bytesToHexBytes, List.foldr_cons, List.cons.injEq] at h
    obtain ⟨h1, h2, h3⟩ := h
    have hx : x = y := by
      have e1 := hexDigitByte_inj _ _ h1
      have e2 := hexDigitByte_inj _ _ h2
      omega
    exact hx ▸ congrArg (x :: ·) (bytesToHexBytes_inj xs ys h3)

/-- Flipping a bit inside the list really changes it. -/
theorem flipBit_ne : ∀ (j k : Nat) (bs : List Nat), j < bs.length → flipBit j k bs ≠ bs
  | j, k, [], h => absurd h (by simp)
  | 0, k, b :: t, _ => by
    simp only [flipBit, ne_eq, List.cons.injEq, not_and]
    intro hb
    have h0 : 1 <<< k = 0 := by
      have := congrArg (fun x => b ^^^ x) hb
      simpa [← Nat.xor_assoc, eq_comm] using this.symm
    rw [Nat.shiftLeft_eq, Nat.one_mul] at h0
    exact absurd h0 (Nat.pos_iff_ne_zero.mp (Nat.pos_pow_of_pos k (by omega)))
  | j + 1, k, b :: t, h => by
    simp only [flipBit, ne_eq, List.cons.injEq, not_and]
    intro _
    exact flipBit_ne j k t (by simpa using h)

/-- The digest the verifier compares against is never the empty string. -/
theorem expectedSignature_ne_nil (payload secret : List Nat) :
    expectedSignature payload secret ≠ [] := by
  unfold expectedSignature signatureTag
  simp

/-- Functional characterization of the verifier: a present signature
header verifies iff it is byte-for-byte the expected
`"sha256=" + hex(HMAC-SHA-256(secret, payload))` string (length mismatch
throws inside `timingSafeEqual` and the `catch` returns false). -/
theorem verify_eq_true_iff (payload secret sig : List Nat) :
    verifyGitHubSignature payload (some sig) secret = true ↔
      sig = expectedSignature payload secret := by
  simp only [verifyGitHubSignature, timingSafeEqual]
  by_cases h0 : sig = []
  · rw [if_pos h0]
    constructor
    · intro h; cases h
    · intro h
      exact absurd (h0 ▸ h).symm (expectedSignature_ne_nil payload secret)
  · rw [if_neg h0]
    by_cases hl : sig.length = (expectedSignature payload secret).length
    · rw [if_pos hl]
      simp
    · rw [if_neg hl]
      constructor
      · intro h; cases h
      · intro he; exact absurd (he ▸ rfl) hl

/-- C5: the verifier's contract. A present header verifies iff it equals
`"sha256=" + hex digest` of the HMAC-SHA-256 of the raw body under the
secret (so every valid signature is accepted and every mismatched one
rejected); an absent header — or the empty string, which is falsy — is
rejected without throwing, and so is a header of the wrong length (the
`timingSafeEqual` throw is caught); flipping any single bit of a valid
signature makes verification fail; and flipping any single bit of the
body makes verification fail whenever the mutated body's HMAC digest
differs from the original's — digest equality under a single-bit flip
would be an HMAC-SHA-256 collision, which is exactly what the
cryptographic reading of the claim excludes. The comparison's
constant-time execution is an operational property of
`crypto.timingSafeEqual`; its functional content (length-guarded
whole-buffer equality, no short-circuit observable in the result) is what
this model captures. -/
theorem c5_verify_hmac_contract (payload secret sig : List Nat) (j k : Nat) :
    (verifyGitHubSignature payload (some sig) secret = true ↔
      sig = expectedSignature payload secret) ∧
    verifyGitHubSignature payload none secret = false ∧
    verifyGitHubSignature payload (some []) secret = false ∧
    expectedSignature payload secret =
      signatureTag ++ bytesToHexBytes (hmacSha256 secret payload) ∧
    (j < sig.length → verifyGitHubSignature payload (some sig) secret = true →
      verifyGitHubSignature payload (some (flipBit j k sig)) secret = false) ∧
    (verifyGitHubSignature payload (some sig) secret = true →
      hmacSha256 secret (flipBit j k payload) ≠ hmacSha256 secret payload →
      verifyGitHubSignature (flipBit j k payload) (some sig) secret = false) := by
  refine ⟨verify_eq_true_iff payload secret sig, rfl, rfl, rfl, ?_, ?_⟩
  · intro hj hv
    have hs := (verify_eq_true_iff payload secret sig).mp hv
    cases hfb : verifyGitHubSignature payload (some (flipBit j k sig)) secret with
    | false => rfl
    | true =>
      have := (verify_eq_true_iff payload secret (flipBit j k sig)).mp hfb
      exact absurd (this.trans hs.symm) (flipBit_ne j k sig hj)
  · intro hv hd
    have hs := (verify_eq_true_iff payload secret sig).mp hv
    cases hfb : verifyGitHubSignature (flipBit j k payload) (some sig) secret with
    | false => rfl
    | true =>
      have h2 := (verify_eq_true_iff (flipBit j k payload) secret sig).mp hfb
      have h3 : expectedSignature (flipBit j k payload) secret =
          expectedSignature payload secret := h2 ▸ hs
      unfold expectedSignature at h3
      exact (hd (bytesToHexBytes_inj _ _ (List.append_cancel_left h3))).elim

/-- C5 witness: with secret `"key"` and body `"msg"`, the computed
signature verifies; flipping the lowest bit of its first byte makes
verification fail; and flipping the lowest bit of the body's first byte
(whose digest demonstrably differs) makes verification fail. -/
theorem c5_witness :
    verifyGitHubSignature sampleRawBody
      (some (expectedSignature sampleRawBody sampleSecret)) sampleSecret = true ∧
    verifyGitHubSignature sampleRawBody
      (some (flipBit 0 0 (expectedSignature sampleRawBody sampleSecret))) sampleSecret = false ∧
    verifyGitHubSignature (flipBit 0 0 sampleRawBody)
      (some (expectedSignature sampleRawBody sampleSecret)) sampleSecret = false := by
  have hv : verifyGitHubSignature sampleRawBody
      (some (expectedSignature sampleRawBody sampleSecret)) sampleSecret = true :=
    (c5_verify_hmac_contract sampleRawBody sampleSecret
      (expectedSignature sampleRawBody sampleSecret) 0 0).1.mpr rfl
  refine ⟨hv, ?_, ?_⟩
  · exact (c5_verify_hmac_contract sampleRawBody sampleSecret
      (expectedSignature sampleRawBody sampleSecret) 0 0).2.2.2.2.1 (by decide) hv
  · exact (c5_verify_hmac_contract sampleRawBody sampleSecret
      (expectedSignature sampleRawBody sampleSecret) 0 0).2.2.2.2.2 hv (by decide)

/-- C8 amended: the recorder's ChangeRequest upsert is a single atomic
statement keyed by the natural key `(repo_id, pr_number)`: it inserts a
full new row when the key is absent; on conflict it overwrites `title`
and `status` and refreshes the `updated_at` marker but leaves `author` at
its stored value (the `DO UPDATE` clause does not list it); it never
changes any row's natural key, and it never creates a second row for an
existing key — key-uniqueness of the table is preserved. -/
theorem c8_amended_upsert_semantics (db : Db) (now repoId prNumber : Nat)
    (title author status : String) :
    ((upsertPullRequest db now repoId prNumber title author status).2.pull_requests =
      if (db.pull_requests.find?
            (fun r => r.repo_id == repoId && r.pr_number == prNumber)).isSome then
        db.pull_requests.map (fun r =>
          if r.repo_id == repoId && r.pr_number == prNumber then
            { r with title := title, status := status, updated_at := now } else r)
      else
        db.pull_requests ++
          [{ id := freshId (db.pull_requests.map (fun r => r.id)), repo_id := repoId,
             pr_number := prNumber, title := title, author := author, status := status,
             created_at := now, updated_at := now }]) ∧
    ((upsertPullRequest db now repoId prNumber title author status).2.pull_requests.map
        (fun r => r.author) =
      if (db.pull_requests.find?
            (fun r => r.repo_id == repoId && r.pr_number == prNumber)).isSome then
        db.pull_requests.map (fun r => r.author)
      else db.pull_requests.map (fun r => r.author) ++ [author]) ∧
    ((upsertPullRequest db now repoId prNumber title author status).2.pull_requests.map
        (fun r => (r.repo_id, r.pr_number)) =
      if (db.pull_requests.find?
            (fun r => r.repo_id == repoId && r.pr_number == prNumber)).isSome then
        db.pull_requests.map (fun r => (r.repo_id, r.pr_number))
      else db.pull_requests.map (fun r => (r.repo_id, r.pr_number)) ++ [(repoId, prNumber)]) ∧
    ((db.pull_requests.map (fun r => (r.repo_id, r.pr_number))).Nodup →
      ((upsertPullRequest db now repoId prNumber title author status).2.pull_requests.map
        (fun r => (r.repo_id, r.pr_number))).Nodup) := by
  have hmain : (upsertPullRequest db now repoId prNumber title author status).2.pull_requests =
      if (db.pull_requests.find?
            (fun r => r.repo_id == repoId && r.pr_number == prNumber)).isSome then
        db.pull_requests.map (fun r =>
          if r.repo_id == repoId && r.pr_number == prNumber then
            { r with title := title, status := status, updated_at := now } else r)
      else
        db.pull_requests ++
          [{ id := freshId (db.pull_requests.map (fun r => r.id)), repo_id := repoId,
             pr_number := prNumber, title := title, author := author, status := status,
             created_at := now, updated_at := now }] := by
    unfold upsertPullRequest
    cases h : db.pull_requests.find?
        (fun r => r.repo_id == repoId && r.pr_number == prNumber) <;> simp [h]
  have hkeys : (upsertPullRequest db now repoId prNumber title author status).2.pull_requests.map
      (fun r => (r.repo_id, r.pr_number)) =
      if (db.pull_requests.find?
            (fun r => r.repo_id == repoId && r.pr_number == prNumber)).isSome then
        db.pull_requests.map (fun r => (r.repo_id, r.pr_number))
      else db.pull_requests.map (fun r => (r.repo_id, r.pr_number)) ++ [(repoId, prNumber)] := by
    rw [hmain]
    cases h : db.pull_requests.find?
        (fun r => r.repo_id == repoId && r.pr_number == prNumber) with
    | some r =>
      simp only [Option.isSome_some, reduceIte]
      exact map_if_update _ _ _ _ (fun r => rfl)
    | none =>
      simp only [Option.isSome_none, reduceIte]
      simp
  refine ⟨hmain, ?_, hkeys, ?_⟩
  · rw [hmain]
    cases h : db.pull_requests.find?
        (fun r => r.repo_id == repoId && r.pr_number == prNumber) with
    | some r =>
      simp only [Option.isSome_some, reduceIte]
      exact map_if_update _ _ _ _ (fun r => rfl)
    | none =>
      simp only [Option.isSome_none, reduceIte]
      simp
  · intro hnd
    rw [hkeys]
    cases h : db.pull_requests.find?
        (fun r => r.repo_id == repoId && r.pr_number == prNumber) with
    | some r =>
      simpa using hnd
    | none =>
      rw [if_neg (by simp)]
      have hnotmem : (repoId, prNumber) ∉
          db.pull_requests.map (fun r => (r.repo_id, r.pr_number)) := by
        intro hmem
        obtain ⟨r, hrmem, hrkey⟩ := List.mem_map.mp hmem
        have hfn := List.find?_eq_none.mp h r hrmem
        apply hfn
        have h1 : r.repo_id = repoId := congrArg Prod.fst hrkey
        have h2 : r.pr_number = prNumber := congrArg Prod.snd hrkey
        simp [h1, h2]
      rw [List.nodup_middle]
      exact List.nodup_cons.mpr ⟨by simpa using hnotmem, by simpa using hnd⟩

/-- C8 witness: `c8_amended_upsert_semantics` at the store holding the
single row `(repo 1, PR 42)`, upserting the same key: the key column is
unchanged and stays duplicate-free. -/
theorem c8_witness :
    (dbWithPR.pull_requests.map (fun r => (r.repo_id, r.pr_number))).Nodup ∧
    ((upsertPullRequest dbWithPR 9 1 42 "New title" "bob" "closed").2.pull_requests.map
      (fun r => (r.repo_id, r.pr_number))).Nodup := by
  have h : (dbWithPR.pull_requests.map (fun r => (r.repo_id, r.pr_number))).Nodup := by decide
  exact ⟨h, (c8_amended_upsert_semantics dbWithPR 9 1 42 "New title" "bob" "closed").2.2.2 h⟩

/-- C2 amended witness: the two entries created by back-to-back enqueues
of the identical payload carry distinct auto-generated ids. -/
theorem c2_amended_witness :
    (enqueueReview emptyQueue sampleJobData).1.id ≠
      (enqueueReview (enqueueReview emptyQueue sampleJobData).2 sampleJobData).1.id :=
  (c2_amended_no_job_row_and_enqueue_not_idempotent emptyState 0 [] openedRequest
    emptyQueue sampleJobData).2.2.2.2.1

end AICodeReviewer
